import Mathlib

/-!
Shallow embedding of geopy/geocoders/google.py (the Google geocoder client)
and verification of its specification claims.

Modelling conventions:
* Machine floats of the source are modelled by the exact decimal values
  the wire literals denote (PyFloat below); the float conversion applied
  to wire strings is modelled by a decimal parser.
* Python exceptions are modelled by the Except monad over the PyErr type;
  each PyErr constructor names the Python exception it stands for.
* External libraries (minidom, simplejson, urllib, the re engine for the
  marker patterns, the HTTP transport) are modelled as already-decoded
  inputs or as injected function parameters, as the spec treats them as
  external collaborators.
* Generators returned in multi-result mode are modelled eagerly as lists
  of per-element outcomes.
-/

set_option autoImplicit false

namespace Geopy

/-- Python values decoded from a JSON response by simplejson.loads.
JSON null decodes to the Python value None, so the null constructor is
also the model of Python None (as produced by dict.get on a missing key). -/
inductive JVal where
  | null
  | b (v : Bool)
  | num (q : Rat)
  | str (s : String)
  | arr (l : List JVal)
  | obj (l : List (String × JVal))

/-- Python exception outcomes raised by the module. The cardinality
constructor stands for the ValueError raised with the message
"Didnt find exactly one placemark/marker (Found n)", floatError for the
ValueError raised by float() on a bad literal, unpackError for the
ValueError raised by tuple unpacking of the wrong length, and geoStatus
for the GeoStatusError class defined at the top of the module, carrying
the status value. -/
inductive PyErr where
  | cardinality (found : Nat)
  | indexError
  | keyError (k : String)
  | typeError
  | attributeError (n : String)
  | nameError (n : String)
  | notImplementedError
  | geoStatus (code : JVal)
  | floatError (s : String)
  | unpackError

/-- Python dict lookup on the key-value pairs decoded from a JSON object:
with duplicate keys the later binding wins, as in a Python dict built
left to right. -/
def jLookup (kvs : List (String × JVal)) (k : String) : Option JVal :=
  kvs.foldl (fun acc p => if p.1 = k then some p.2 else acc) none

/-- Python dict.get with a default: defined on dict values only; any other
receiver raises AttributeError (the .get attribute does not exist). -/
def dictGet (v : JVal) (k : String) (dflt : JVal) : Except PyErr JVal :=
  match v with
  | .obj kvs => .ok ((jLookup kvs k).getD dflt)
  | _ => .error (.attributeError "get")

/-- Python subscript v[k] with a string key: KeyError on a dict missing the
key, TypeError on receivers that do not support string subscripts. -/
def pySubscript (v : JVal) (k : String) : Except PyErr JVal :=
  match v with
  | .obj kvs =>
    match jLookup kvs k with
    | some x => .ok x
    | none => .error (.keyError k)
  | _ => .error .typeError

/-- Python slice v[:2]; coordinates on the wire are a JSON list, any other
value is modelled as a TypeError. -/
def pySlice2 (v : JVal) : Except PyErr (List JVal) :=
  match v with
  | .arr l => .ok (l.take 2)
  | _ => .error .typeError

/-- Python len(): defined for lists, dicts and strings, TypeError otherwise. -/
def pyLen (v : JVal) : Except PyErr Nat :=
  match v with
  | .arr l => .ok l.length
  | .obj l => .ok l.length
  | .str s => .ok s.length
  | _ => .error .typeError

/-- Python subscript v[0]: IndexError on an empty sequence, TypeError on a
non-sequence. -/
def pyIndex0 (v : JVal) : Except PyErr JVal :=
  match v with
  | .arr [] => .error .indexError
  | .arr (x :: _) => .ok x
  | .str s =>
    match s.toList with
    | [] => .error .indexError
    | c :: _ => .ok (.str (String.singleton c))
  | _ => .error .typeError

/-- Python equality of a value with the integer 200, as evaluated by the
status comparison: only the number 200 (an int or the float 200.0, both a
Rat here) compares equal. -/
def isNum200 : JVal → Bool
  | .num q => q == 200
  | _ => false

/-- Exact decimal value mant / 10 ^ shift denoted by a float literal on
the wire. The source only converts coordinate strings with float() and
passes the values through unchanged, so the exact decimal value is the
faithful observable; the binary rounding of machine floats is outside the
model. -/
structure PyFloat where
  mant : Int
  shift : Nat
  deriving DecidableEq

/-- Digits of a decimal literal read into a Nat. -/
def digitsToNat (cs : List Char) : Nat :=
  cs.foldl (fun acc c => 10 * acc + (c.toNat - 48)) 0

/-- Core of the Python float() conversion for decimal literals: optional
sign, integer part, optional fractional part. Exponent forms and the
inf/nan words accepted by Python do not occur on this wire format and are
out of scope of the model. -/
def pyFloatCore (cs : List Char) : Option PyFloat :=
  let signed : Int × List Char :=
    match cs with
    | '-' :: r => (-1, r)
    | '+' :: r => (1, r)
    | r => (1, r)
  let sign := signed.1
  let afterSign := signed.2
  let ip := afterSign.takeWhile Char.isDigit
  let rest := afterSign.dropWhile Char.isDigit
  match rest with
  | [] => if ip.isEmpty then none else some ⟨sign * (digitsToNat ip : Int), 0⟩
  | '.' :: frac =>
    let fp := frac.takeWhile Char.isDigit
    let rest2 := frac.dropWhile Char.isDigit
    if rest2.isEmpty = false then none
    else if ip.isEmpty && fp.isEmpty then none
    else some ⟨sign * ((digitsToNat ip : Int) * (10 : Int) ^ fp.length + (digitsToNat fp : Int)), fp.length⟩
  | _ => none

/-- Python float(s): strips surrounding whitespace and parses a decimal
literal; a non-conforming string raises ValueError (floatError here). -/
def pyFloat (s : String) : Except PyErr PyFloat :=
  let cs := (s.toList.dropWhile (fun c => c = ' ')).reverse.dropWhile (fun c => c = ' ') |>.reverse
  match pyFloatCore cs with
  | some q => .ok q
  | none => .error (.floatError s)

/-- Python str.split on the comma separator: every comma splits, empty
pieces are kept. -/
def splitComma : List Char → List (List Char)
  | [] => [[]]
  | c :: rest =>
    if c = ',' then [] :: splitComma rest
    else
      match splitComma rest with
      | [] => [[c]]
      | g :: gs => (c :: g) :: gs

/-- Python str.split(",") on a string. -/
def pySplitComma (s : String) : List String :=
  (splitComma s.toList).map String.mk

/-- Simplified DOM for the minidom documents the XML parser walks: an
element with a tag and children, or a text node. -/
inductive XmlNode where
  | elem (tag : String) (children : List XmlNode)
  | text (s : String)

/-- A parsed document is the forest of its top-level nodes. -/
abbrev XmlDoc := List XmlNode

mutual

/-- Elements with the given tag in the subtree rooted at a node, in
document order, the node itself included when it matches. -/
def XmlNode.elemsIn : XmlNode → String → List XmlNode
  | .text _, _ => []
  | .elem tag cs, t =>
    (if tag = t then [XmlNode.elem tag cs] else []) ++ getElemsList cs t

/-- All elements with the given tag in a forest, in document order, roots
included (the document-level getElementsByTagName of minidom). -/
def getElemsList : List XmlNode → String → List XmlNode
  | [], _ => []
  | n :: rest, t => XmlNode.elemsIn n t ++ getElemsList rest t

end

/-- Element-level getElementsByTagName of minidom: descendants only. -/
def XmlNode.getElementsByTagName : XmlNode → String → List XmlNode
  | .elem _ cs, t => getElemsList cs t
  | .text _, _ => []

/-- Text carried by an element: the value of its first text child. -/
def elemText : XmlNode → Option String
  | .elem _ cs =>
    cs.findSome? fun c =>
      match c with
      | .text s => some s
      | .elem _ _ => none
  | .text s => some s

/-- Modelled from the spec: geopy.util.get_first_text is not under src.
Per the spec, a field read takes tag names in order and returns the first
non-empty text of the first element carrying that tag, else absent; a
receiver of None yields absent. -/
def get_first_text (node : Option XmlNode) (tags : List String) : Option String :=
  match node with
  | none => none
  | some n =>
    tags.findSome? fun t =>
      match n.getElementsByTagName t with
      | [] => none
      | e :: _ => (elemText e).filter (fun s => s ≠ "")

/-- A single XML result: the optional label and the (latitude, longitude)
pair. -/
abbrev XmlPlace := Option String × (PyFloat × PyFloat)

/-- The Point elements nested under a placemark. -/
def placePoints (place : XmlNode) : List XmlNode :=
  place.getElementsByTagName "Point"

/-- The coordinate text of a placemark: the coordinates text of the first
nested Point, taken through get_first_text, with an empty text read as
absent (the or None of the source). -/
def coordsTextOf (place : XmlNode) : Option String :=
  get_first_text (placePoints place).head? ["coordinates"]

/-- The inner parse_place of Google.parse_xml. The nested self.geocode call
used as fallback when a placemark has no coordinate text is injected as
the resolver gfn, returning the (place, (latitude, longitude)) tuple of a
default exactly-one forward geocode. -/
def parse_place (gfn : Option String → Option String × (PyFloat × PyFloat)) (place : XmlNode) :
    Except PyErr XmlPlace :=
  let location := get_first_text (some place) ["address", "name"]
  match coordsTextOf place with
  | some c => do
    let fs ← ((pySplitComma c).take 2).mapM pyFloat
    match fs with
    | [longitude, latitude] => .ok (location, (latitude, longitude))
    | _ => .error .unpackError
  | none => .ok (location, (gfn location).2)

/-- Result shape of parse_xml: one tuple under exactly-one, else the list
of per-placemark outcomes of the returned generator. -/
inductive XmlOut where
  | one (r : XmlPlace)
  | many (rs : List (Except PyErr XmlPlace))

/-- Google.parse_xml. The page argument is the outcome of the external
minidom.parseString call on the body: a parse failure (ExpatError) or the
document. The source catches ExpatError and proceeds with an empty
placemark list; the exactly-one check is skipped under reverse, after
which places[0] is evaluated. -/
def parse_xml (gfn : Option String → Option String × (PyFloat × PyFloat))
    (page : Except Unit XmlDoc) (exactly_one reverse : Bool) : Except PyErr XmlOut :=
  let places :=
    match page with
    | .error _ => []
    | .ok doc => getElemsList doc "Placemark"
  if (exactly_one && places.length != 1) && !reverse then
    .error (.cardinality places.length)
  else if exactly_one then
    match places with
    | [] => .error .indexError
    | p :: _ => (parse_place gfn p).map XmlOut.one
  else
    .ok (.many (places.map (parse_place gfn)))

/-- Google.parse_csv: unconditionally NotImplementedError. -/
def parse_csv (_page : String) (_exactly_one _reverse : Bool) : Except PyErr XmlOut :=
  .error .notImplementedError

/-- Google.parse_kml: delegates to parse_xml unchanged. -/
def parse_kml (gfn : Option String → Option String × (PyFloat × PyFloat))
    (page : Except Unit XmlDoc) (exactly_one reverse : Bool) : Except PyErr XmlOut :=
  parse_xml gfn page exactly_one reverse

/-- Modelled from the spec: geopy.util.RichResult is not under src. Per the
spec it wraps the (label, coordinate) pair together with the optional
locality name, administrative-area name and accuracy indicator pulled from
the nested AddressDetails structure (each a Python value, None when
absent). Coordinates stay the decoded JSON values, as the source applies
no float conversion in the JSON path. -/
structure RichResult where
  location : JVal
  latitude : JVal
  longitude : JVal
  locality : JVal
  administrative : JVal
  accuracy : JVal

/-- The inner parse_place of Google.parse_json: label from the address
field, coordinates from Placemark.Point.coordinates sliced to two and
unpacked as longitude, latitude, then the chained .get walks through
AddressDetails with empty-dict defaults. -/
def parse_place_json (place : JVal) : Except PyErr RichResult := do
  let location ← dictGet place "address" .null
  let pt ← pySubscript place "Point"
  let co ← pySubscript pt "coordinates"
  let cs ← pySlice2 co
  match cs with
  | [longitude, latitude] => do
    let ad ← dictGet place "AddressDetails" (.obj [])
    let country ← dictGet ad "Country" (.obj [])
    let area ← dictGet country "AdministrativeArea" (.obj [])
    let loc2 ← dictGet area "Locality" (.obj [])
    let locality ← dictGet loc2 "LocalityName" .null
    let ad2 ← dictGet place "AddressDetails" (.obj [])
    let country2 ← dictGet ad2 "Country" (.obj [])
    let area2 ← dictGet country2 "AdministrativeArea" (.obj [])
    let administrative ← dictGet area2 "AdministrativeAreaName" .null
    let ad3 ← dictGet place "AddressDetails" (.obj [])
    let accuracy ← dictGet ad3 "Accuracy" .null
    .ok ⟨location, latitude, longitude, locality, administrative, accuracy⟩
  | _ => .error .unpackError

/-- Result shape of parse_json: one RichResult under exactly-one, else the
per-placemark outcomes of the returned generator. -/
inductive JsonOut where
  | one (r : RichResult)
  | many (rs : List (Except PyErr RichResult))

/-- The status read json.get(Status, empty).get(code) of Google.parse_json. -/
def statusOf (j : JVal) : Except PyErr JVal := do
  let st ← dictGet j "Status" (.obj [])
  dictGet st "code" .null

/-- Multi-result branch of parse_json: the generator over places, modelled
eagerly; iterating a non-list raises TypeError. -/
def jsonMany (places : JVal) : Except PyErr JsonOut :=
  match places with
  | .arr l => .ok (.many (l.map parse_place_json))
  | _ => .error .typeError

/-- Google.parse_json on the value decoded by simplejson.loads: a status
other than the number 200 raises GeoStatusError carrying the status value;
then the exactly-one check, skipped under reverse, after which places[0]
is evaluated. The source only evaluates len(places) when exactly_one is
truthy, by short-circuit. -/
def parse_json (j : JVal) (exactly_one reverse : Bool) : Except PyErr JsonOut := do
  let status ← statusOf j
  if !(isNum200 status) then
    .error (.geoStatus status)
  else do
    let places ← dictGet j "Placemark" (.arr [])
    if exactly_one then do
      let n ← pyLen places
      if n != 1 && !reverse then
        .error (.cardinality n)
      else do
        let p ← pyIndex0 places
        let r ← parse_place_json p
        .ok (.one r)
    else
      jsonMany places

/-- Model of the lazy fragment of the ADDRESS pattern of parse_js after a
space and opening parenthesis: any run of non-newline characters followed
by an at sign. True when such an at sign is reachable. -/
def fragOk : List Char → Bool
  | [] => false
  | c :: cs => if c = '@' then true else if c = '\n' then false else fragOk cs

/-- Does the ADDRESS terminator of parse_js match at the head of the
remaining input: a space, an opening parenthesis, then an at-containing
fragment. -/
def headMarker : List Char → Bool
  | ' ' :: '(' :: rest => fragOk rest
  | _ => false

/-- Model of re.match with the ADDRESS pattern of parse_js: the lazy
address group grows until either the parenthetical marker matches or the
end of input (or an input-final newline) is reached; a newline elsewhere
makes the whole match fail, as the dot of the pattern cannot cross it.
The accumulator holds the consumed prefix reversed. -/
def matchAddr : List Char → List Char → Option (List Char)
  | acc, [] => some acc.reverse
  | acc, c :: rest =>
    if headMarker (c :: rest) then some acc.reverse
    else if c = '\n' then (if rest.isEmpty then some acc.reverse else none)
    else matchAddr (c :: acc) rest

/-- Position of the first match of the parenthetical marker in a label. -/
def firstMarkerPos? : List Char → Option Nat
  | [] => none
  | c :: rest =>
    if headMarker (c :: rest) then some 0 else (firstMarkerPos? rest).map (· + 1)

/-- Does the parenthetical marker match anywhere in the label. -/
def hasMarker : List Char → Bool
  | [] => false
  | c :: rest => headMarker (c :: rest) || hasMarker rest

/-- A label free of newline characters. -/
def noNewline (cs : List Char) : Prop := '\n' ∉ cs

instance (cs : List Char) : Decidable (noNewline cs) := by
  unfold noNewline
  infer_instance

/-- The label post-processing of parse_marker inside parse_js, the group
extraction re.match(ADDRESS, location).group: a failed match leaves the
match object None and raises AttributeError on .group. -/
def re_match_ADDRESS (s : String) : Except PyErr String :=
  match matchAddr [] s.toList with
  | some cs => .ok (String.mk cs)
  | none => .error (.attributeError "group")

/-- The inner parse_marker of Google.parse_js: post-process the label, then
convert latitude and longitude with float(). -/
def parse_marker (m : String × String × String) : Except PyErr (String × (PyFloat × PyFloat)) := do
  let location ← re_match_ADDRESS m.2.2
  let latitude ← pyFloat m.1
  let longitude ← pyFloat m.2.1
  .ok (location, (latitude, longitude))

/-- Behavior of the external re engine on the MARKERS and MARKER patterns
of parse_js, as the object the name re would denote if it were bound:
searchMarkers is re.search(MARKERS, page) followed by .group on the
markers group (None when the search fails), findallMarker is
re.findall(MARKER, markers) yielding (latitude, longitude, location)
string triples. -/
structure ReOps where
  searchMarkers : String → Option String
  findallMarker : String → List (String × String × String)

/-- Names bound at module level of google.py by its import statements and
class definitions (source lines 1 to 12 and the two class statements). -/
def moduleGlobals : List String :=
  ["logging", "urlencode", "urlopen", "simplejson", "xml", "ExpatError",
   "Geocoder", "Point", "Location", "util", "GeoStatusError", "Google"]

/-- Python builtin names a bare name lookup can fall back to (the subset
relevant to this module). -/
def pyBuiltins : List String :=
  ["float", "str", "len", "isinstance", "getattr", "locals", "super",
   "property", "ValueError", "NotImplementedError", "Exception",
   "basestring", "True", "False", "None"]

/-- Resolution of the global name re inside parse_js: the module never
imports re and re is not a builtin, so the name is unbound and evaluating
re.search raises NameError. -/
def re_global : Option ReOps := none

/-- Result shape of parse_js: one tuple under exactly-one, else the
per-marker outcomes of the returned generator. -/
inductive JsOut where
  | one (r : String × (PyFloat × PyFloat))
  | many (rs : List (Except PyErr (String × (PyFloat × PyFloat))))

/-- Google.parse_js: the first statement evaluating the name re is
re.search(MARKERS, page), before any marker is produced; with the name
unbound this raises NameError. With a bound re object the markers group
is extracted (empty string when the search fails), the MARKER triples
are collected, and the exactly-one check, skipped under reverse, guards
markers[0]. -/
def parse_js (reOps : Option ReOps) (page : String) (exactly_one reverse : Bool) :
    Except PyErr JsOut :=
  match reOps with
  | none => .error (.nameError "re")
  | some re =>
    let markersStr := (re.searchMarkers page).getD ""
    let markers := re.findallMarker markersStr
    if exactly_one then
      if markers.length != 1 && !reverse then
        .error (.cardinality markers.length)
      else
        match markers with
        | [] => .error .indexError
        | m :: _ => (parse_marker m).map JsOut.one
    else
      .ok (.many (markers.map parse_marker))

/-- The configuration record stored by Google.__init__: the five fields
set on self and never assigned again. -/
structure Google where
  api_key : Option String
  domain : String
  resource : String
  format_string : String
  output_format : String

/-- Python truthiness of an optional string argument: None and the empty
string are falsy. -/
def truthy : Option String → Bool
  | none => false
  | some s => !s.isEmpty

/-- Substitution pass over a template: each %s slot is replaced by the
argument. -/
def pyFormatL (arg : List Char) : List Char → List Char
  | [] => []
  | '%' :: 's' :: rest => arg ++ pyFormatL arg rest
  | c :: rest => c :: pyFormatL arg rest

/-- The percent-substitution format_string % value for templates whose only
conversion is a single %s slot, the documented shape of format_string. -/
def pyFormat (fmt arg : String) : String :=
  String.mk (pyFormatL arg.toList fmt.toList)

/-- Python str.lower on ASCII text. -/
def pyLower (s : String) : String :=
  String.mk (s.toList.map Char.toLower)

/-- Does the pattern list lead the subject list. -/
def startsWithL : List Char → List Char → Bool
  | [], _ => true
  | _ :: _, [] => false
  | p :: ps, c :: cs => p = c && startsWithL ps cs

/-- Python str.endswith. -/
def pyEndsWith (s suffix : String) : Bool :=
  startsWithL suffix.toList.reverse s.toList.reverse

/-- str(sensor).lower() on a Python bool. -/
def pyStrOfBool (b : Bool) : String :=
  if b then "true" else "false"

/-- str() of the api_key value as applied by urlencode: None prints as the
word None. -/
def pyStrOfOpt : Option String → String
  | none => "None"
  | some s => s

/-- Python rstrip on the slash character. -/
def pyRstripSlash (s : String) : String :=
  String.mk ((s.toList.reverse.dropWhile (fun c => c = '/')).reverse)

/-- Python strip on the slash character: both ends. -/
def pyStripSlash (s : String) : String :=
  String.mk (((s.toList.dropWhile (fun c => c = '/')).reverse.dropWhile (fun c => c = '/')).reverse)

/-- Hexadecimal digit as used by percent-encoding. -/
def hexDigit (n : Nat) : Char :=
  if n < 10 then Char.ofNat (48 + n) else Char.ofNat (55 + n % 6)

/-- urllib.quote_plus on ASCII text: letters, digits and underscore, dot,
dash pass through, space becomes plus, the rest is percent-encoded. -/
def quote_plus (s : String) : String :=
  String.join (s.toList.map fun c =>
    if c = ' ' then "+"
    else if c.isAlphanum || c = '_' || c = '.' || c = '-' then String.singleton c
    else String.mk ['%', hexDigit (c.toNat / 16), hexDigit (c.toNat % 16)])

/-- urllib.urlencode over the parameter pairs; the source builds a dict
with distinct literal keys, modelled here in insertion order. -/
def urlencode (params : List (String × String)) : String :=
  String.intercalate "&" (params.map fun p => quote_plus p.1 ++ "=" ++ quote_plus p.2)

/-- Query parameters assembled by Google.geocode: q from the formatted
query, output lower-cased, sensor, then gl when the language code is
truthy, ll and spn when both viewport arguments are truthy, and key
exactly when the resource with trailing slashes stripped ends in geo. -/
def geocode_params (g : Google) (s : String) (sensor : Bool)
    (language_code viewport_center viewport_span : Option String) :
    List (String × String) :=
  let base := [("q", pyFormat g.format_string s),
               ("output", pyLower g.output_format),
               ("sensor", pyStrOfBool sensor)]
  let withGl := base ++ (if truthy language_code then [("gl", pyStrOfOpt language_code)] else [])
  let withVp := withGl ++
    (if truthy viewport_center && truthy viewport_span then
      [("ll", pyStrOfOpt viewport_center), ("spn", pyStrOfOpt viewport_span)]
    else [])
  withVp ++ (if pyEndsWith (pyRstripSlash g.resource) "geo" then [("key", pyStrOfOpt g.api_key)] else [])

/-- Query parameters assembled by Google.reverse: q from the two formatted
coordinate components joined by a comma, output lower-cased, and key under
the same resource condition as geocode. The latitude and longitude floats
are modelled by their decimal string renderings. -/
def reverse_params (g : Google) (lat lng : String) : List (String × String) :=
  let base := [("q", pyFormat g.format_string lat ++ "," ++ pyFormat g.format_string lng),
               ("output", pyLower g.output_format)]
  base ++ (if pyEndsWith (pyRstripSlash g.resource) "geo" then [("key", pyStrOfOpt g.api_key)] else [])

/-- The url property composed with the query string: scheme, stripped
domain, stripped resource, question mark, encoded parameters. -/
def full_url (g : Google) (params : List (String × String)) : String :=
  "http://" ++ pyStripSlash g.domain ++ "/" ++ pyStripSlash g.resource ++ "?" ++ urlencode params

/-- The body a fetched URL decodes to, presented under each external
decoder the parsers apply: the minidom outcome, the simplejson outcome,
and the raw text. -/
structure Page where
  asXml : Except Unit XmlDoc
  asJson : Except PyErr JVal
  text : String

/-- Union of the parser result shapes, for the dispatcher. -/
inductive GOut where
  | xml (o : XmlOut)
  | json (o : JsonOut)
  | js (o : JsOut)

/-- The getattr dispatch of Google.geocode_url: parse_ prepended to the
configured output_format selects the parser; an unknown format has no such
attribute and raises AttributeError. -/
def dispatch (g : Google) (gfn : Option String → Option String × (PyFloat × PyFloat))
    (page : Page) (exactly_one reverse : Bool) : Except PyErr GOut :=
  match g.output_format with
  | "xml" => (parse_xml gfn page.asXml exactly_one reverse).map GOut.xml
  | "kml" => (parse_kml gfn page.asXml exactly_one reverse).map GOut.xml
  | "json" => (page.asJson >>= fun j => parse_json j exactly_one reverse).map GOut.json
  | "csv" => (parse_csv page.text exactly_one reverse).map GOut.xml
  | "js" => (parse_js re_global page.text exactly_one reverse).map GOut.js
  | fmt => .error (.attributeError ("parse_" ++ fmt))

/-- Google.geocode_url with the object state threaded explicitly: fetch is
the external urlopen plus page decode, and the method performs no
assignment to self, so the state out is the state in. -/
def geocode_url_run (g : Google) (fetch : String → Page)
    (gfn : Option String → Option String × (PyFloat × PyFloat))
    (url : String) (exactly_one reverse : Bool) : Except PyErr GOut × Google :=
  let page := fetch url
  (dispatch g gfn page exactly_one reverse, g)

/-- Google.geocode with the object state threaded explicitly: build the
parameters, encode them into the url, and delegate with reverse False. -/
def geocode_run (g : Google) (fetch : String → Page)
    (gfn : Option String → Option String × (PyFloat × PyFloat))
    (s : String) (exactly_one : Bool) (language_code : Option String) (sensor : Bool)
    (viewport_center viewport_span : Option String) : Except PyErr GOut × Google :=
  let params := geocode_params g s sensor language_code viewport_center viewport_span
  let url := full_url g params
  geocode_url_run g fetch gfn url exactly_one false

/-- Google.reverse with the object state threaded explicitly: build the
parameters from the coordinate pair and delegate with reverse True. -/
def reverse_run (g : Google) (fetch : String → Page)
    (gfn : Option String → Option String × (PyFloat × PyFloat))
    (lat lng : String) (exactly_one : Bool) : Except PyErr GOut × Google :=
  let params := reverse_params g lat lng
  let url := full_url g params
  geocode_url_run g fetch gfn url exactly_one true

/-- A resolver stub for the injected nested geocode call: never consulted
in the scenarios that carry coordinates. -/
def gfn0 : Option String → Option String × (PyFloat × PyFloat) :=
  fun _ => (none, (⟨0, 0⟩, ⟨0, 0⟩))

/-- A placemark carrying an address and a coordinate text, as in the
end-to-end scenario of the spec. -/
def pmAddressPoint : XmlNode :=
  XmlNode.elem "Placemark"
    [XmlNode.elem "address" [XmlNode.text "1600 Amphitheatre Pkwy"],
     XmlNode.elem "Point" [XmlNode.elem "coordinates" [XmlNode.text "-122.084,37.422,0"]]]

/-- A placemark carrying an address but no Point, the fallback scenario. -/
def pmAddressOnly : XmlNode :=
  XmlNode.elem "Placemark" [XmlNode.elem "address" [XmlNode.text "A"]]

/-- A well-formed document with zero placemarks. -/
def emptyKml : XmlDoc := [XmlNode.elem "kml" []]

/-- A JSON response with success status and no placemarks. -/
def jsonStatus200 : JVal := JVal.obj [("Status", JVal.obj [("code", JVal.num 200)])]

/-- A JSON response with failure status 403. -/
def jsonStatus403 : JVal := JVal.obj [("Status", JVal.obj [("code", JVal.num 403)])]

/-- An Except outcome that is not a GeoStatusError. -/
def geoFree {α : Type} (x : Except PyErr α) : Prop :=
  ∀ c, x ≠ .error (.geoStatus c)

theorem except_bind_ok {α β : Type} (x : α) (f : α → Except PyErr β) :
    (Except.ok x >>= f) = f x := rfl

theorem except_bind_err {α β : Type} (e : PyErr) (f : α → Except PyErr β) :
    ((Except.error e : Except PyErr α) >>= f) = .error e := rfl

theorem geoFree_ok {α : Type} (x : α) : geoFree (Except.ok x) := by
  intro c h
  simp at h

theorem geoFree_bind {α β : Type} {x : Except PyErr α} {f : α → Except PyErr β}
    (hx : geoFree x) (hf : ∀ a, geoFree (f a)) : geoFree (x >>= f) := by
  cases x with
  | ok a =>
    rw [except_bind_ok]
    exact hf a
  | error e =>
    rw [except_bind_err]
    intro c h
    injection h with h1
    exact hx c (by rw [h1])

theorem geoFree_dictGet (v : JVal) (k : String) (d : JVal) : geoFree (dictGet v k d) := by
  intro c h
  cases v <;> simp [dictGet] at h

theorem geoFree_pySubscript (v : JVal) (k : String) : geoFree (pySubscript v k) := by
  intro c h
  unfold pySubscript at h
  split at h <;> first
    | simp_all
    | (split at h <;> simp_all)

theorem geoFree_pySlice2 (v : JVal) : geoFree (pySlice2 v) := by
  intro c h
  cases v <;> simp [pySlice2] at h

theorem geoFree_pyLen (v : JVal) : geoFree (pyLen v) := by
  intro c h
  cases v <;> simp [pyLen] at h

theorem geoFree_pyIndex0 (v : JVal) : geoFree (pyIndex0 v) := by
  intro c h
  unfold pyIndex0 at h
  split at h <;> try simp_all
  rename_i s
  cases hs : s.data <;> rw [hs] at h <;> simp at h

theorem geoFree_parse_place_json (p : JVal) : geoFree (parse_place_json p) := by
  unfold parse_place_json
  refine geoFree_bind (geoFree_dictGet _ _ _) fun location => ?_
  refine geoFree_bind (geoFree_pySubscript _ _) fun pt => ?_
  refine geoFree_bind (geoFree_pySubscript _ _) fun co => ?_
  refine geoFree_bind (geoFree_pySlice2 _) fun cs => ?_
  match cs with
  | [] => intro c h; simp at h
  | [_] => intro c h; simp at h
  | _ :: _ :: _ :: _ => intro c h; simp at h
  | [lo, la] =>
    refine geoFree_bind (geoFree_dictGet _ _ _) fun ad => ?_
    refine geoFree_bind (geoFree_dictGet _ _ _) fun country => ?_
    refine geoFree_bind (geoFree_dictGet _ _ _) fun area => ?_
    refine geoFree_bind (geoFree_dictGet _ _ _) fun loc2 => ?_
    refine geoFree_bind (geoFree_dictGet _ _ _) fun locality => ?_
    refine geoFree_bind (geoFree_dictGet _ _ _) fun ad2 => ?_
    refine geoFree_bind (geoFree_dictGet _ _ _) fun country2 => ?_
    refine geoFree_bind (geoFree_dictGet _ _ _) fun area2 => ?_
    refine geoFree_bind (geoFree_dictGet _ _ _) fun administrative => ?_
    refine geoFree_bind (geoFree_dictGet _ _ _) fun ad3 => ?_
    refine geoFree_bind (geoFree_dictGet _ _ _) fun accuracy => ?_
    exact geoFree_ok _

theorem geoFree_jsonMany (places : JVal) : geoFree (jsonMany places) := by
  intro c h
  cases places <;> simp [jsonMany] at h

theorem isNum200_true_iff (s : JVal) : isNum200 s = true ↔ s = JVal.num 200 := by
  cases s <;> simp [isNum200]

theorem firstMarkerPos?_none {cs : List Char} (h : hasMarker cs = false) :
    firstMarkerPos? cs = none := by
  induction cs with
  | nil => rfl
  | cons c rest ih =>
    unfold hasMarker at h
    rw [Bool.or_eq_false_iff] at h
    unfold firstMarkerPos?
    rw [h.1, ih h.2]
    simp

theorem matchAddr_go (cs : List Char) : ∀ acc : List Char, noNewline cs →
    matchAddr acc cs = some (acc.reverse ++ cs.take ((firstMarkerPos? cs).getD cs.length)) := by
  induction cs with
  | nil =>
    intro acc _
    simp [matchAddr, firstMarkerPos?]
  | cons c rest ih =>
    intro acc hnl
    have hc : ¬ (c = '\n') := by
      intro hcc
      exact hnl (by rw [hcc]; exact List.mem_cons_self _ _)
    have hrest : noNewline rest := fun hm => hnl (List.mem_cons_of_mem _ hm)
    by_cases hm : headMarker (c :: rest) = true
    · unfold matchAddr firstMarkerPos?
      rw [if_pos hm, if_pos hm]
      simp
    · unfold matchAddr firstMarkerPos?
      rw [if_neg hm, if_neg hm, if_neg hc]
      rw [ih (c :: acc) hrest]
      cases hfp : firstMarkerPos? rest with
      | none => simp [List.take_length]
      | some k => simp [List.take_succ_cons]

/-- C1: the claim states that under exactly-one reverse parsing the
cardinality check is skipped and an empty result collection yields an
explicit no-results error. The code instead evaluates places[0] on the
empty collection: evaluated here on a well-formed zero-placemark XML
document and on a status-200 JSON response with no placemarks, both under
exactly_one and reverse, the XML and JSON parsers raise IndexError rather
than any no-results error. -/
theorem c1_reverse_empty_index_crash :
    parse_xml gfn0 (.ok emptyKml) true true = .error .indexError
    ∧ parse_json jsonStatus200 true true = .error .indexError :=
  ⟨rfl, rfl⟩

/-- C2: parse_json raises GeoStatusError carrying exactly the decoded
status value whenever that value is not the number 200, regardless of the
placemark content, and never raises GeoStatusError when the status is
200. -/
theorem c2_status_code (j : JVal) (e r : Bool) :
    (∀ s, statusOf j = Except.ok s → s ≠ JVal.num 200 →
      parse_json j e r = Except.error (PyErr.geoStatus s))
    ∧ (statusOf j = Except.ok (JVal.num 200) →
      ∀ c, parse_json j e r ≠ Except.error (PyErr.geoStatus c)) := by
  constructor
  · intro s hs hne
    have hf : isNum200 s = false := by
      cases hh : isNum200 s
      · rfl
      · exact absurd ((isNum200_true_iff s).mp hh) hne
    unfold parse_json
    rw [hs, except_bind_ok, hf]
    simp
  · intro hs c
    unfold parse_json
    rw [hs, except_bind_ok]
    have h200 : isNum200 (JVal.num 200) = true := by simp [isNum200]
    rw [h200]
    simp only [Bool.not_true, Bool.false_eq_true, if_false]
    refine geoFree_bind (geoFree_dictGet _ _ _) (fun places => ?_) c
    cases e with
    | false =>
      simpa using geoFree_jsonMany places
    | true =>
      simp only [if_true]
      refine geoFree_bind (geoFree_pyLen _) fun n => ?_
      by_cases hcard : (n != 1 && !r) = true
      · rw [if_pos hcard]
        intro c2 hx
        simp at hx
      · rw [if_neg hcard]
        refine geoFree_bind (geoFree_pyIndex0 _) fun p => ?_
        refine geoFree_bind (geoFree_parse_place_json _) fun rr => ?_
        exact geoFree_ok _

/-- C2 witness: a response whose Status.code is 403 makes parse_json raise
GeoStatusError carrying 403. -/
theorem c2_status_code_witness :
    parse_json jsonStatus403 true false = Except.error (PyErr.geoStatus (JVal.num 403)) :=
  (c2_status_code jsonStatus403 true false).1 (JVal.num 403) rfl
    (by intro h; injection h with h1; exact absurd h1 (by norm_num))

/-- C3: a page that is not well-formed XML is treated by parse_xml exactly
like a well-formed document with zero placemarks, in every mode, and under
exactly-one non-reverse that zero count raises the cardinality ValueError
reporting zero found. -/
theorem c3_malformed_xml_lenient :
    ∀ (gfn : Option String → Option String × (PyFloat × PyFloat)) (e r : Bool),
      parse_xml gfn (.error ()) e r = parse_xml gfn (.ok []) e r
      ∧ parse_xml gfn (.error ()) true false = .error (.cardinality 0) :=
  fun _ _ _ => ⟨rfl, rfl⟩

/-- C4: when a placemark carries coordinate text, parse_place splits it on
commas, keeps the first two components, ignoring any further altitude
component, converts them as longitude then latitude, and returns the pair
flipped to (latitude, longitude), labelled by the first non-empty of the
address or name fields. -/
theorem c4_coordinate_flip (gfn : Option String → Option String × (PyFloat × PyFloat))
    (place : XmlNode) (ctext lonS latS : String) (rest : List String) (lo la : PyFloat)
    (hc : coordsTextOf place = some ctext)
    (hsplit : pySplitComma ctext = lonS :: latS :: rest)
    (hlo : pyFloat lonS = .ok lo) (hla : pyFloat latS = .ok la) :
    parse_place gfn place = .ok (get_first_text (some place) ["address", "name"], (la, lo)) := by
  unfold parse_place
  rw [hc]
  simp only [hsplit, List.take_succ_cons, List.take_zero]
  rw [List.mapM_cons, hlo, except_bind_ok, List.mapM_cons, hla, except_bind_ok,
    List.mapM_nil]
  rfl

/-- C4 witness: the end-to-end placemark of the spec with coordinate text
-122.084,37.422,0 parses to the address label and the flipped pair
(37.422, -122.084). -/
theorem c4_coordinate_flip_witness :
    parse_place gfn0 pmAddressPoint
      = .ok (some "1600 Amphitheatre Pkwy", (⟨37422, 3⟩, ⟨-122084, 3⟩)) :=
  c4_coordinate_flip gfn0 pmAddressPoint "-122.084,37.422,0" "-122.084" "37.422" ["0"]
    ⟨-122084, 3⟩ ⟨37422, 3⟩ rfl rfl rfl rfl

/-- C5: for every configuration and query the key parameter is present in
the parameter list of the URL built by geocode, and likewise by reverse,
exactly when the configured resource with trailing slashes stripped ends
in geo. -/
theorem c5_api_key_iff_geo :
    ∀ (g : Google) (s : String) (sensor : Bool) (lc vc vs : Option String) (lat lng : String),
      (("key" ∈ (geocode_params g s sensor lc vc vs).map Prod.fst)
        ↔ pyEndsWith (pyRstripSlash g.resource) "geo" = true)
      ∧ (("key" ∈ (reverse_params g lat lng).map Prod.fst)
        ↔ pyEndsWith (pyRstripSlash g.resource) "geo" = true) := by
  intro g s sensor lc vc vs lat lng
  constructor
  · unfold geocode_params
    split_ifs with h1 h2 h3 h4 h5 h6 h7 <;> simp_all
  · unfold reverse_params
    split_ifs with h1 <;> simp_all

/-- C6: the viewport parameters ll and spn appear in the parameter list
built by geocode together or not at all: exactly when both the viewport
center and the viewport span are truthy. -/
theorem c6_viewport_together :
    ∀ (g : Google) (s : String) (sensor : Bool) (lc vc vs : Option String),
      (("ll" ∈ (geocode_params g s sensor lc vc vs).map Prod.fst)
        ↔ (truthy vc && truthy vs) = true)
      ∧ (("spn" ∈ (geocode_params g s sensor lc vc vs).map Prod.fst)
        ↔ (truthy vc && truthy vs) = true) := by
  intro g s sensor lc vc vs
  unfold geocode_params
  constructor <;> (split_ifs with h1 h2 h3 h4 h5 h6 h7 <;> simp_all)

/-- C7: a placemark with a resolvable label but no coordinate text makes
parse_place invoke the injected forward-geocode resolver on that label and
return the resolved coordinate paired with the original label. -/
theorem c7_geocode_fallback (gfn : Option String → Option String × (PyFloat × PyFloat))
    (place : XmlNode) (loc : String)
    (hloc : get_first_text (some place) ["address", "name"] = some loc)
    (hco : coordsTextOf place = none) :
    parse_place gfn place = .ok (some loc, (gfn (some loc)).2) := by
  unfold parse_place
  rw [hco, hloc]

/-- C7 witness: a placemark with address A and no Point resolves through a
resolver sending every query to (B, (1, 2)) and yields label A with the
resolved coordinate (1, 2). -/
theorem c7_geocode_fallback_witness :
    parse_place (fun _ => (some "B", (⟨1, 0⟩, ⟨2, 0⟩))) pmAddressOnly
      = .ok (some "A", (⟨1, 0⟩, ⟨2, 0⟩)) :=
  c7_geocode_fallback (fun _ => (some "B", (⟨1, 0⟩, ⟨2, 0⟩))) pmAddressOnly "A" rfl rfl

/-- C8: the label post-processing of the JS parser truncates the example
label at the parenthetical at-sign marker, in general returns the prefix
before the first position where the marker pattern matches, and keeps a
newline-free label whole when the marker matches nowhere. -/
theorem c8_label_truncation :
    re_match_ADDRESS "123 Main St (via Acme@example)" = .ok "123 Main St"
    ∧ (∀ s : String, noNewline s.toList →
        matchAddr [] s.toList
          = some (s.toList.take ((firstMarkerPos? s.toList).getD s.toList.length)))
    ∧ (∀ s : String, noNewline s.toList → hasMarker s.toList = false →
        re_match_ADDRESS s = .ok s) := by
  refine ⟨rfl, ?_, ?_⟩
  · intro s h
    simpa using matchAddr_go s.toList [] h
  · intro s hnl hm
    unfold re_match_ADDRESS
    rw [matchAddr_go s.toList [] hnl, firstMarkerPos?_none hm]
    cases s with
    | mk data => simp [String.length, List.take_length]

/-- C8 witness: a marker-free label passes through the post-processing
unchanged. -/
theorem c8_label_truncation_witness :
    re_match_ADDRESS "123 Main St" = .ok "123 Main St" :=
  c8_label_truncation.2.2 "123 Main St" (by decide) (by decide)

/-- C9: the module imports never bind the name re, so parse_js resolves it
to nothing and raises NameError on every page and flag combination, before
producing any result. -/
theorem c9_parse_js_name_error :
    ("re" ∉ moduleGlobals ∧ "re" ∉ pyBuiltins)
    ∧ ∀ (page : String) (e r : Bool),
        parse_js re_global page e r = .error (.nameError "re") :=
  ⟨⟨by decide, by decide⟩, fun _ _ _ => rfl⟩

/-- C10: geocode and reverse, run with the object state threaded through,
return the configuration state they were given unchanged, on every input
and whatever the parse outcome, so all five configuration fields are
preserved. -/
theorem c10_config_immutable :
    ∀ (g : Google) (fetch : String → Page)
      (gfn : Option String → Option String × (PyFloat × PyFloat))
      (s : String) (e : Bool) (lc : Option String) (sensor : Bool)
      (vc vs : Option String) (lat lng : String),
      (geocode_run g fetch gfn s e lc sensor vc vs).2 = g
      ∧ (reverse_run g fetch gfn lat lng e).2 = g :=
  fun _ _ _ _ _ _ _ _ _ _ _ => ⟨rfl, rfl⟩

end Geopy
